import Mathlib

/-!
# Verification of the KMRL induction-planner core

Shallow embedding of the optimization core of the `mvp-induction` repository
(`src/constraints.py`, `src/cost_model.py`, `src/solver.py`, `src/explain.py`).

Modelling conventions:
* A pandas DataFrame becomes a `List` of row structures; `df.loc[df["train_id"] == id]`
  followed by `.empty` / `.iloc[0]` becomes `List.find?` (first matching row / `none`).
* Python floats are modelled by the type `F` below: exact rationals for finite values
  plus the IEEE special values `+inf`, `-inf`, `nan` (rounding of finite arithmetic is
  not modelled; none of the verified properties depends on it).  Quantities that are
  finite throughout (sub-scores, matrix entries after the `INF` substitution) are
  plain rationals.
* `str.strip().lower()` is modelled by `pyStripLower` (whitespace = the space
  character, which covers every string occurring in the data model).
-/

/-- IEEE-style float model: a finite rational, or one of the special values. -/
inductive F where
  | fin : ℚ → F
  | pinf : F
  | ninf : F
  | nan : F
deriving DecidableEq, Repr

namespace F

/-- Model of Python `math.isfinite`. -/
def isFinite : F → Bool
  | .fin _ => true
  | _ => false

/-- Float addition: finite values add exactly; special values propagate as in IEEE. -/
def add : F → F → F
  | .nan, _ => .nan
  | _, .nan => .nan
  | .fin a, .fin b => .fin (a + b)
  | .fin _, .pinf => .pinf
  | .fin _, .ninf => .ninf
  | .pinf, .fin _ => .pinf
  | .ninf, .fin _ => .ninf
  | .pinf, .pinf => .pinf
  | .ninf, .ninf => .ninf
  | .pinf, .ninf => .nan
  | .ninf, .pinf => .nan

/-- Float multiplication: finite values multiply exactly; special values as in IEEE
(`0 * inf = nan`). -/
def mul : F → F → F
  | .nan, _ => .nan
  | _, .nan => .nan
  | .fin a, .fin b => .fin (a * b)
  | .fin a, .pinf => if 0 < a then .pinf else if a < 0 then .ninf else .nan
  | .fin a, .ninf => if 0 < a then .ninf else if a < 0 then .pinf else .nan
  | .pinf, .fin b => if 0 < b then .pinf else if b < 0 then .ninf else .nan
  | .ninf, .fin b => if 0 < b then .ninf else if b < 0 then .pinf else .nan
  | .pinf, .pinf => .pinf
  | .pinf, .ninf => .ninf
  | .ninf, .pinf => .ninf
  | .ninf, .ninf => .pinf

end F

/-- Model of Python `str.lower()` (ASCII). -/
def pyLower (s : String) : String := String.mk (s.data.map Char.toLower)

/-- Model of Python `str.strip().lower()`: drop leading/trailing spaces, lowercase. -/
def pyStripLower (s : String) : String :=
  let cs := s.data.dropWhile (fun c => c == ' ')
  let cs := (cs.reverse.dropWhile (fun c => c == ' ')).reverse
  String.mk (cs.map Char.toLower)

/-- First-seen deduplication with an accumulator of already-seen keys; models both
`pandas.Series.unique()` and `dict.fromkeys` (order-preserving, keep first). -/
def firstDedupAux [BEq α] (seen : List α) : List α → List α
  | [] => []
  | x :: xs =>
    if seen.contains x then firstDedupAux seen xs
    else x :: firstDedupAux (x :: seen) xs

/-- Order-preserving deduplication keeping the first occurrence. -/
def firstDedup [BEq α] (l : List α) : List α := firstDedupAux [] l

/-! ## Data model (rows of the five source tables) -/

/-- A row of `job_card.csv` (columns `train_id`, `blocked`). -/
structure JobRow where
  train_id : String
  blocked : Int
deriving DecidableEq, Repr

/-- A row of `certificate_validity.csv`. -/
structure CertRow where
  train_id : String
  brake_test_valid : Int
  pto_valid : Int
  atp_valid : Int
deriving DecidableEq, Repr

/-- A row of `cleaning_roster.csv`. -/
structure CleanRow where
  train_id : String
  cleaning_done : Int
deriving DecidableEq, Repr

/-- A row of `mileage.csv`. -/
structure MileageRow where
  train_id : String
  mileage_km : ℚ
deriving DecidableEq, Repr

/-- A row of `induction_slots.csv`; `shunt_distance = none` models a missing or
non-numeric value (the `try: float(...) except` fallback in `shunt_proxy`). -/
structure SlotRow where
  slot_id : String
  role : String
  shunt_distance : Option ℚ
deriving DecidableEq, Repr

instance : Inhabited SlotRow := ⟨⟨"", "", none⟩⟩

/-- The bundle of the five loaded tables (the `data` dict of the Python code). -/
structure Data where
  job_card : List JobRow
  certificate_validity : List CertRow
  cleaning_roster : List CleanRow
  mileage : List MileageRow
  induction_slots : List SlotRow
deriving DecidableEq, Repr

/-! ## constraints.py -/

/-- Embedding of `constraints.is_pair_feasible`. -/
def is_pair_feasible (train_id : String) (job_df : List JobRow) (cert_df : List CertRow)
    (clean_df : List CleanRow) (slot_row : SlotRow) : Bool :=
  match job_df.find? (fun r => r.train_id == train_id),
        cert_df.find? (fun r => r.train_id == train_id),
        clean_df.find? (fun r => r.train_id == train_id) with
  | some job_row, some cert_row, some clean_row =>
    let role := pyStripLower slot_row.role
    if role == "service" && job_row.blocked == 1 then false
    else if role == "service" then
      if !(cert_row.brake_test_valid == 1 && cert_row.pto_valid == 1
            && cert_row.atp_valid == 1) then false
      else if clean_row.cleaning_done == 0 then false
      else true
    else true
  | _, _, _ => false

/-! ## cost_model.py -/

/-- The weight vector (`DEFAULT_WEIGHTS`-shaped dict); weights are floats. -/
structure Weights where
  w_readiness : F
  w_mileage : F
  w_shunt : F
deriving DecidableEq, Repr

/-- Embedding of `cost_model.DEFAULT_WEIGHTS`. -/
def DEFAULT_WEIGHTS : Weights := ⟨.fin 10, .fin 1, .fin (1/2)⟩

/-- Embedding of `cost_model.INF` (the large finite sentinel `1_000_000.0`). -/
def INF : ℚ := 1000000

/-- Embedding of `cost_model.readiness_risk`. -/
def readiness_risk (train_id : String) (job_df : List JobRow) (cert_df : List CertRow)
    (clean_df : List CleanRow) : ℚ :=
  match job_df.find? (fun r => r.train_id == train_id),
        cert_df.find? (fun r => r.train_id == train_id),
        clean_df.find? (fun r => r.train_id == train_id) with
  | some job_row, some cert_row, some clean_row =>
    if job_row.blocked == 1 then 5
    else if !(cert_row.brake_test_valid == 1 && cert_row.pto_valid == 1
               && cert_row.atp_valid == 1) then 4
    else if clean_row.cleaning_done == 0 then 1
    else 0
  | _, _, _ => 5

/-- Embedding of `cost_model.mileage_penalty` (with the default threshold and scale). -/
def mileage_penalty (train_id : String) (mileage_df : List MileageRow) : ℚ :=
  match mileage_df.find? (fun r => r.train_id == train_id) with
  | none => 2
  | some row => max 0 ((row.mileage_km - 200000) / 10000)

/-- Embedding of `cost_model.shunt_proxy`. -/
def shunt_proxy (slot_row : SlotRow) : ℚ :=
  match slot_row.shunt_distance with
  | some d => d / 100
  | none =>
    let role := pyLower slot_row.role
    if role == "service" then 1
    else if role == "standby" then 1/2
    else if role == "ibl" then 3/2
    else 1

/-- The weighted linear combination of the three sub-scores computed at
`cost_model.py` lines 117-121, in float arithmetic (left-associated as in Python). -/
def weightedSum (w : Weights) (r m s : ℚ) : F :=
  F.add (F.add (F.mul w.w_readiness (F.fin r)) (F.mul w.w_mileage (F.fin m)))
    (F.mul w.w_shunt (F.fin s))

/-- Embedding of `cost_model.compute_pair_cost`. -/
def compute_pair_cost (train_id : String) (slot_row : SlotRow) (data : Data)
    (weights : Option Weights) : ℚ :=
  let w := weights.getD DEFAULT_WEIGHTS
  if !(is_pair_feasible train_id data.job_card data.certificate_validity
        data.cleaning_roster slot_row) then INF
  else
    let r_risk := readiness_risk train_id data.job_card data.certificate_validity
        data.cleaning_roster
    let m_pen := mileage_penalty train_id data.mileage
    let s_pr := shunt_proxy slot_row
    match weightedSum w r_risk m_pen s_pr with
    | .fin q => q
    | _ => INF

/-- Embedding of `cost_model.explain_reason`. -/
def explain_reason (train_id : String) (slot_row : SlotRow) (data : Data) : String :=
  let r := readiness_risk train_id data.job_card data.certificate_validity
      data.cleaning_roster
  let m := mileage_penalty train_id data.mileage
  let s := shunt_proxy slot_row
  let reasons :=
    (if r ≥ 5 then ["blocked / high readiness risk"]
     else if r ≥ 4 then ["certificate issue"]
     else if r ≥ 1 then ["cleaning pending"] else []) ++
    (if m ≥ 3 then ["very high mileage"]
     else if m ≥ 1 then ["high mileage"] else []) ++
    (if s ≥ 4 then ["long shunt movement"] else [])
  if reasons = [] then "good fit"
  else String.intercalate "; " (reasons.take 2)

/-! ## solver.py -/

/-- All insertions of `x` into a list (helper for enumerating permutations). -/
def insertEverywhere (x : α) : List α → List (List α)
  | [] => [[x]]
  | y :: ys => (x :: y :: ys) :: (insertEverywhere x ys).map (fun l => y :: l)

/-- All permutations of a list, enumerated structurally.  Together with `bestPerm`
below this models `scipy.optimize.linear_sum_assignment`: an exact algorithm that
returns a minimum-total-cost assignment (documented contract of the external
routine; the Python code treats it as such). -/
def allPerms : List α → List (List α)
  | [] => [[]]
  | x :: xs => (allPerms xs).flatMap (insertEverywhere x)

/-- Pick a candidate of minimal `f`-value from a list (first minimum wins). -/
def bestPerm (f : List Nat → ℚ) : List (List Nat) → List Nat
  | [] => []
  | x :: xs => xs.foldl (fun best q => if f q < f best then q else best) x

/-- Total cost of an assignment `p` (row `r` matched to column `p[r]`) over the
square matrix `sq`, as summed by the solver. -/
def totalCost (sq : Nat → Nat → ℚ) (p : List Nat) : ℚ :=
  (p.enum.map (fun rc => sq rc.1 rc.2)).sum

/-- Row labels of the cost matrix built by `cost_model.build_cost_matrix`:
the job-card train ids, first-seen deduplicated (`job["train_id"].unique()`). -/
def realTrains (data : Data) : List String :=
  firstDedup (data.job_card.map (fun j => j.train_id))

/-- Column labels of the cost matrix: the slot ids in table order. -/
def realSlots (data : Data) : List String :=
  data.induction_slots.map (fun s => s.slot_id)

/-- Side length of the padded square matrix built by `solver.pad_to_square`. -/
def paddedSize (data : Data) : Nat :=
  max (realTrains data).length (realSlots data).length

/-- The padded square matrix of `solver.pad_to_square`: real cells carry
`compute_pair_cost`, every padding cell carries the `INF` sentinel. -/
def paddedCost (data : Data) (weights : Option Weights) : Nat → Nat → ℚ := fun r c =>
  if r < (realTrains data).length ∧ c < (realSlots data).length then
    compute_pair_cost ((realTrains data).getD r "")
      (data.induction_slots.getD c default) data weights
  else INF

/-- The assignment chosen by the solve step of `solver.solve_and_extract`
(`linear_sum_assignment` on the padded matrix): a minimum-total-cost permutation. -/
def chosenMatching (data : Data) (weights : Option Weights) : List Nat :=
  bestPerm (totalCost (paddedCost data weights)) (allPerms (List.range (paddedSize data)))

/-- One row of the output DataFrame of `solver.solve_and_extract`. -/
structure AssignRow where
  train_id : String
  assigned_slot : Option String
  role : Option String
  cost : Option ℚ
  explanation : String
deriving DecidableEq, Repr

/-- Failure modes of a solve call.  `keyError` models the pandas `KeyError` raised
by `out_df.set_index("train_id")` when the assignment list is empty; `emptyInput`
and `invalidWeight` are the conditions named by the specification (the Python code
defines no such conditions, they exist here so their absence can be stated). -/
inductive SolverError where
  | emptyInput
  | invalidWeight
  | keyError
deriving DecidableEq, Repr

/-- Decoding of one matched `(row, column)` pair in the loop of
`solver.solve_and_extract` (lines 70-102); `none` for a dummy row. -/
def decodePair (data : Data) (trains slots : List String)
    (sq : Nat → Nat → ℚ) (r c : Nat) : Option AssignRow :=
  if r < trains.length then
    if c < slots.length then
      let cost_val := sq r c
      if cost_val ≥ INF / 10 then
        some { train_id := trains.getD r "", assigned_slot := none, role := none,
               cost := none, explanation := "No feasible slot" }
      else
        let slot_id := slots.getD c ""
        let slot_row := (data.induction_slots.find? (fun s => s.slot_id == slot_id)).getD default
        some { train_id := trains.getD r "", assigned_slot := some slot_id,
               role := some slot_row.role, cost := some cost_val,
               explanation := explain_reason (trains.getD r "") slot_row data }
    else
      some { train_id := trains.getD r "", assigned_slot := none, role := none,
             cost := none, explanation := "Assigned to dummy (no available real slot)" }
  else none

/-- Embedding of `solver.solve_and_extract`: build the cost matrix, pad it to a
square, solve, decode each matched pair, then reindex the result on the job-card
train-id order (`set_index("train_id").reindex(...)`; on an empty assignment list
the `set_index` call raises a `KeyError`, modelled as `.error .keyError`; a train id
absent from the result index is filled with null cells by `reindex`). -/
def solveAssignments (data : Data) (weights : Option Weights) : List AssignRow :=
  (chosenMatching data weights).enum.filterMap
    (fun rc => decodePair data (realTrains data) (realSlots data)
      (paddedCost data weights) rc.1 rc.2)

/-- Embedding of the final reindex step of `solver.solve_and_extract`:
look up each job-card train id in the decoded assignment list. -/
def reindexRow (assignments : List AssignRow) (j : JobRow) : AssignRow :=
  match assignments.find? (fun a => a.train_id == j.train_id) with
  | some a => a
  | none => { train_id := j.train_id, assigned_slot := none, role := none,
              cost := none, explanation := "" }

def solve_and_extract (data : Data) (weights : Option Weights) :
    Except SolverError (List AssignRow) :=
  if (solveAssignments data weights).isEmpty then Except.error SolverError.keyError
  else Except.ok (data.job_card.map (reindexRow (solveAssignments data weights)))

/-! ## explain.py -/

/-- Embedding of `explain.get_infeasibility_reasons`; the `slot_row` argument is
`none` when the Python caller passes `None` or an empty row. -/
def get_infeasibility_reasons (train_id : String) (slot_row : Option SlotRow)
    (data : Data) : List String :=
  let job_row := data.job_card.find? (fun r => r.train_id == train_id)
  let cert_row := data.certificate_validity.find? (fun r => r.train_id == train_id)
  let clean_row := data.cleaning_roster.find? (fun r => r.train_id == train_id)
  let missing :=
    (if job_row.isNone then ["missing job-card data"] else []) ++
    (if cert_row.isNone then ["missing certificate data"] else []) ++
    (if clean_row.isNone then ["missing cleaning data"] else [])
  let slotReasons :=
    match slot_row with
    | none => []
    | some srow =>
      (match cert_row with
       | some cert =>
         if !(cert.brake_test_valid == 1 && cert.pto_valid == 1 && cert.atp_valid == 1)
         then ["certificate invalid"] else []
       | none => []) ++
      (match job_row with
       | some job =>
         if job.blocked == 1 && srow.role == "Service"
         then ["blocked train cannot go to Service"] else []
       | none => []) ++
      (match clean_row with
       | some clean =>
         if clean.cleaning_done == 0 && srow.role == "Service"
         then ["cleaning pending for Service"] else []
       | none => [])
  firstDedup (missing ++ slotReasons)

/-! ## Helper lemmas -/

theorem mem_firstDedupAux [BEq α] [LawfulBEq α] {a : α} :
    ∀ {l seen : List α}, a ∈ l → seen.contains a = false → a ∈ firstDedupAux seen l
  | [], _, h, _ => by cases h
  | x :: xs, seen, h, hseen => by
    unfold firstDedupAux
    rcases List.mem_cons.mp h with rfl | hmem
    · rw [if_neg (by simp_all)]
      exact List.mem_cons_self _ _
    · by_cases hx : seen.contains x
      · rw [if_pos hx]
        exact mem_firstDedupAux hmem hseen
      · rw [if_neg hx]
        by_cases hax : a = x
        · subst hax; exact List.mem_cons_self _ _
        · refine List.mem_cons_of_mem _ (mem_firstDedupAux hmem ?_)
          simp_all [List.contains_cons]

theorem mem_firstDedup_of_mem [BEq α] [LawfulBEq α] {a : α} {l : List α}
    (h : a ∈ l) : a ∈ firstDedup l :=
  mem_firstDedupAux h (by simp [List.contains])

theorem foldl_best_le (f : List Nat → ℚ) :
    ∀ (xs : List (List Nat)) (x y : List Nat), y ∈ x :: xs →
      f (xs.foldl (fun best q => if f q < f best then q else best) x) ≤ f y
  | [], x, y, h => by
    rcases List.mem_cons.mp h with rfl | h
    · simp
    · cases h
  | z :: zs, x, y, h => by
    simp only [List.foldl_cons]
    have step : ∀ w : List Nat, w ∈ (if f z < f x then z else x) :: zs →
        f (zs.foldl (fun best q => if f q < f best then q else best)
          (if f z < f x then z else x)) ≤ f w :=
      fun w hw => foldl_best_le f zs _ w hw
    have hacc : f (zs.foldl (fun best q => if f q < f best then q else best)
        (if f z < f x then z else x)) ≤ f (if f z < f x then z else x) :=
      step _ (List.mem_cons_self _ _)
    rcases List.mem_cons.mp h with rfl | h
    · refine le_trans hacc ?_
      by_cases hzx : f z < f y
      · rw [if_pos hzx]; exact le_of_lt hzx
      · rw [if_neg hzx]
    · rcases List.mem_cons.mp h with rfl | h
      · refine le_trans hacc ?_
        by_cases hzx : f y < f x
        · rw [if_pos hzx]
        · rw [if_neg hzx]; exact le_of_not_lt hzx
      · exact step y (List.mem_cons_of_mem _ h)

theorem bestPerm_le_of_mem (f : List Nat → ℚ) (xs : List (List Nat)) (hne : xs ≠ [])
    (y : List Nat) (hy : y ∈ xs) : f (bestPerm f xs) ≤ f y := by
  cases xs with
  | nil => exact absurd rfl hne
  | cons x rest => exact foldl_best_le f rest x y hy

theorem mem_insertEverywhere_split (x : α) :
    ∀ (s t : List α), (s ++ x :: t) ∈ insertEverywhere x (s ++ t)
  | [], t => by simp [insertEverywhere]; cases t <;> simp [insertEverywhere]
  | y :: s, t => by
    simp only [List.cons_append, insertEverywhere, List.mem_cons]
    right
    exact List.mem_map.mpr ⟨s ++ x :: t, mem_insertEverywhere_split x s t, rfl⟩

theorem mem_allPerms_of_perm [DecidableEq α] :
    ∀ {l p : List α}, p.Perm l → p ∈ allPerms l
  | [], p, h => by
    rw [List.perm_nil.mp h]; simp [allPerms]
  | x :: xs, p, h => by
    have hx : x ∈ p := h.mem_iff.mpr (List.mem_cons_self _ _)
    obtain ⟨s, t, rfl⟩ := List.append_of_mem hx
    have hmid : (s ++ x :: t).Perm (x :: (s ++ t)) := List.perm_middle
    have hrest : (s ++ t).Perm xs := (hmid.symm.trans h).cons_inv
    simp only [allPerms, List.mem_flatMap]
    exact ⟨s ++ t, mem_allPerms_of_perm hrest, mem_insertEverywhere_split x s t⟩

/-! ## Concrete example inputs for witnesses and counterexamples -/

/-- One healthy train, one standby slot. -/
def exOneTrain : Data :=
  { job_card := [⟨"T1", 0⟩],
    certificate_validity := [⟨"T1", 1, 1, 1⟩],
    cleaning_roster := [⟨"T1", 1⟩],
    mileage := [⟨"T1", 0⟩],
    induction_slots := [⟨"S1", "Standby", some 100⟩] }

/-- A standby slot with zero shunt distance. -/
def slotStandby0 : SlotRow := ⟨"S1", "Standby", some 0⟩

/-- Healthy train whose mileage drives the mileage penalty to exactly `10^6`. -/
def exHighMileage : Data :=
  { job_card := [⟨"T1", 0⟩],
    certificate_validity := [⟨"T1", 1, 1, 1⟩],
    cleaning_roster := [⟨"T1", 1⟩],
    mileage := [⟨"T1", 200000 + 10000000000⟩],
    induction_slots := [slotStandby0] }

/-- Healthy train present in job-card/certificate/cleaning but absent from mileage. -/
def exMissingMileage : Data :=
  { job_card := [⟨"T1", 0⟩],
    certificate_validity := [⟨"T1", 1, 1, 1⟩],
    cleaning_roster := [⟨"T1", 1⟩],
    mileage := [],
    induction_slots := [slotStandby0] }

/-- A train absent from every source table. -/
def exAllMissing : Data :=
  { job_card := [], certificate_validity := [], cleaning_roster := [],
    mileage := [], induction_slots := [slotStandby0] }

/-- Empty train table but a nonempty slot table. -/
def exNoTrains : Data :=
  { job_card := [], certificate_validity := [], cleaning_roster := [],
    mileage := [], induction_slots := [⟨"S1", "Service", some 10⟩] }

/-- A blocked but otherwise healthy train, with a lowercase-`"service"` slot. -/
def exBlocked : Data :=
  { job_card := [⟨"T1", 1⟩],
    certificate_validity := [⟨"T1", 1, 1, 1⟩],
    cleaning_roster := [⟨"T1", 1⟩],
    mileage := [⟨"T1", 0⟩],
    induction_slots := [⟨"S1", "service", some 0⟩] }

/-- A train with an invalid PTO certificate, and a standby slot. -/
def exBadCert : Data :=
  { job_card := [⟨"T1", 0⟩],
    certificate_validity := [⟨"T1", 1, 0, 1⟩],
    cleaning_roster := [⟨"T1", 1⟩],
    mileage := [⟨"T1", 0⟩],
    induction_slots := [slotStandby0] }

/-! ## Claim theorems -/

/-- C1: for every input with at least one train and one slot, the matching chosen
by `solve_and_extract` (the solve step on the padded square matrix) is a global
minimum of total cost: no alternative one-to-one assignment of the `paddedSize`
rows to the `paddedSize` columns — a train matched to a padding cell paying that
cell's `INF` sentinel — has a strictly lower total. -/
theorem solve_matching_globally_minimal (data : Data) (weights : Option Weights)
    (hT : data.job_card ≠ []) (hS : data.induction_slots ≠ [])
    (p : List Nat) (hp : p.Perm (List.range (paddedSize data))) :
    totalCost (paddedCost data weights) (chosenMatching data weights) ≤
      totalCost (paddedCost data weights) p := by
  have hne : allPerms (List.range (paddedSize data)) ≠ [] :=
    List.ne_nil_of_mem (mem_allPerms_of_perm (List.Perm.refl _))
  exact bestPerm_le_of_mem _ _ hne p (mem_allPerms_of_perm hp)

/-- Witness for C1 at a concrete one-train/one-slot input, compared against the
(only) alternative assignment `[0]`. -/
theorem solve_matching_globally_minimal_witness :
    exOneTrain.job_card ≠ [] ∧ exOneTrain.induction_slots ≠ [] ∧
      totalCost (paddedCost exOneTrain none) (chosenMatching exOneTrain none) ≤
        totalCost (paddedCost exOneTrain none) [0] :=
  ⟨by simp [exOneTrain], by simp [exOneTrain],
    solve_matching_globally_minimal exOneTrain none (by simp [exOneTrain])
      (by simp [exOneTrain]) [0]
      ((show List.range (paddedSize exOneTrain) = [0] from rfl) ▸ List.Perm.refl [0])⟩

/-- C2: whenever the job-card table lists each train id exactly once and
`solve_and_extract` returns a DataFrame, that DataFrame has exactly one row per
input train, in the job-card order. -/
theorem solve_output_one_row_per_train (data : Data) (weights : Option Weights)
    (res : List AssignRow)
    (huniq : (data.job_card.map (fun j => j.train_id)).Nodup)
    (hok : solve_and_extract data weights = Except.ok res) :
    res.map (fun a => a.train_id) = data.job_card.map (fun j => j.train_id) ∧
      (res.map (fun a => a.train_id)).Nodup := by
  unfold solve_and_extract at hok
  split at hok
  · exact Except.noConfusion hok
  · simp only [Except.ok.injEq] at hok
    subst hok
    rw [List.map_map]
    have hfn : ∀ j ∈ data.job_card,
        ((fun a : AssignRow => a.train_id) ∘
          reindexRow (solveAssignments data weights)) j = j.train_id := by
      intro j _
      simp only [Function.comp, reindexRow]
      split
      · next a heq =>
          have hp := List.find?_some heq
          exact eq_of_beq hp
      · rfl
    constructor
    · exact List.map_congr_left hfn
    · rw [List.map_congr_left hfn]; exact huniq

/-- The output row produced for the one-train example. -/
def exOneTrainRow : AssignRow :=
  { train_id := "T1", assigned_slot := some "S1", role := some "Standby",
    cost := some (1/2), explanation := "good fit" }

/-- Witness for C2 at the concrete one-train input. -/
theorem solve_output_one_row_per_train_witness :
    (exOneTrain.job_card.map (fun j => j.train_id)).Nodup ∧
      [exOneTrainRow].map (fun a => a.train_id) =
        exOneTrain.job_card.map (fun j => j.train_id) := by
  have hc : chosenMatching exOneTrain none = [0] := rfl
  have hok : solve_and_extract exOneTrain none = Except.ok [exOneTrainRow] := by
    rw [solve_and_extract, solveAssignments, hc]
    norm_num [decodePair, paddedCost, realTrains, realSlots, firstDedup, firstDedupAux,
      compute_pair_cost, is_pair_feasible, readiness_risk, mileage_penalty,
      shunt_proxy, weightedSum, explain_reason, exOneTrain, exOneTrainRow, pyStripLower,
      pyLower, F.mul, F.add, INF, DEFAULT_WEIGHTS, reindexRow]
    exact fun h => Option.noConfusion h
  exact ⟨by simp [exOneTrain],
    (solve_output_one_row_per_train exOneTrain none _ (by simp [exOneTrain]) hok).1⟩

/-- C6 counterexample: on an empty train table `solve_and_extract` fails with the
incidental `KeyError` of the output-reindex step, not with a dedicated
`EmptyInput` condition. -/
theorem empty_input_counterexample :
    solve_and_extract exNoTrains none = Except.error SolverError.keyError ∧
      solve_and_extract exNoTrains none ≠ Except.error SolverError.emptyInput := by
  refine ⟨rfl, ?_⟩
  intro h
  rw [show solve_and_extract exNoTrains none = Except.error SolverError.keyError from rfl] at h
  simp at h

/-- C6 amended: if the train set is empty, `solve_and_extract` fails with the
`KeyError` raised by `set_index("train_id")` on the empty result frame (rather
than returning a DataFrame); no dedicated `EmptyInput` condition is signalled. -/
theorem empty_trains_raise_key_error (data : Data) (weights : Option Weights)
    (h : data.job_card = []) :
    solve_and_extract data weights = Except.error SolverError.keyError := by
  have htr : realTrains data = [] := by
    simp [realTrains, h, firstDedup, firstDedupAux]
  have hnil : solveAssignments data weights = [] := by
    refine List.filterMap_eq_nil.mpr ?_
    intro rc _
    simp [decodePair, htr]
  unfold solve_and_extract
  rw [hnil]
  rfl

/-- Witness for C6 amended at the concrete empty-train input. -/
theorem empty_trains_raise_key_error_witness :
    exNoTrains.job_card = [] ∧
      solve_and_extract exNoTrains none = Except.error SolverError.keyError :=
  ⟨rfl, empty_trains_raise_key_error exNoTrains none rfl⟩

/-- C7 counterexample: a negative weight is not rejected — the solve returns a
result whose cost `-1` was computed with the supplied weight `w_shunt = -1`. -/
theorem invalid_weight_counterexample :
    solve_and_extract exOneTrain (some ⟨.fin 0, .fin 0, .fin (-1)⟩) =
        Except.ok [{ train_id := "T1", assigned_slot := some "S1", role := some "Standby",
                     cost := some (-1), explanation := "good fit" }] ∧
      solve_and_extract exOneTrain (some ⟨.fin 0, .fin 0, .fin (-1)⟩) ≠
        Except.error SolverError.invalidWeight := by
  have hc : chosenMatching exOneTrain (some ⟨.fin 0, .fin 0, .fin (-1)⟩) = [0] := rfl
  have hok : solve_and_extract exOneTrain (some ⟨.fin 0, .fin 0, .fin (-1)⟩) =
      Except.ok [{ train_id := "T1", assigned_slot := some "S1", role := some "Standby",
                   cost := some (-1), explanation := "good fit" }] := by
    rw [solve_and_extract, solveAssignments, hc]
    norm_num [decodePair, paddedCost, realTrains, realSlots, firstDedup, firstDedupAux,
      compute_pair_cost, is_pair_feasible, readiness_risk, mileage_penalty,
      shunt_proxy, weightedSum, explain_reason, exOneTrain, pyStripLower, pyLower,
      F.mul, F.add, INF, reindexRow]
    exact fun h => Option.noConfusion h
  refine ⟨hok, ?_⟩
  intro h
  rw [hok] at h
  exact Except.noConfusion h

/-- C7 amended: weights are used exactly as supplied — no call is ever rejected
with an `InvalidWeight` condition, whatever the weight vector contains. -/
theorem weights_never_rejected (data : Data) (weights : Option Weights) :
    solve_and_extract data weights ≠ Except.error SolverError.invalidWeight := by
  unfold solve_and_extract
  split
  · intro h
    simp at h
  · intro h
    exact Except.noConfusion h

/-- Witness for C7 amended at a concrete negative-weight call. -/
theorem weights_never_rejected_witness :
    solve_and_extract exOneTrain (some ⟨.fin 0, .fin 0, .fin (-1)⟩) ≠
      Except.error SolverError.invalidWeight :=
  weights_never_rejected exOneTrain (some ⟨.fin 0, .fin 0, .fin (-1)⟩)

/-- C3 counterexample: with the finite non-negative default weight values, a
feasible pair (healthy train on a standby slot) whose mileage penalty is `10^6`
receives exactly the sentinel cost `INF`. -/
theorem cost_inf_iff_infeasible_counterexample :
    is_pair_feasible "T1" exHighMileage.job_card exHighMileage.certificate_validity
        exHighMileage.cleaning_roster slotStandby0 = true ∧
      compute_pair_cost "T1" slotStandby0 exHighMileage
        (some ⟨.fin 10, .fin 1, .fin (1/2)⟩) = INF := by
  refine ⟨rfl, ?_⟩
  norm_num [compute_pair_cost, is_pair_feasible, readiness_risk, mileage_penalty,
    shunt_proxy, weightedSum, exHighMileage, slotStandby0, pyStripLower, pyLower,
    F.mul, F.add, INF]

/-- C3 amended: with finite non-negative weights, `compute_pair_cost` equals `INF`
iff the pair is infeasible **or** the weighted sum of the sub-scores itself equals
the sentinel value (which a feasible pair can reach, e.g. through the mileage
penalty). -/
theorem cost_inf_iff_infeasible_or_sum_inf (data : Data) (train_id : String)
    (slot_row : SlotRow) (a b c : ℚ) (ha : 0 ≤ a) (hb : 0 ≤ b) (hc : 0 ≤ c) :
    compute_pair_cost train_id slot_row data (some ⟨.fin a, .fin b, .fin c⟩) = INF ↔
      (is_pair_feasible train_id data.job_card data.certificate_validity
          data.cleaning_roster slot_row = false ∨
        a * readiness_risk train_id data.job_card data.certificate_validity
            data.cleaning_roster
          + b * mileage_penalty train_id data.mileage
          + c * shunt_proxy slot_row = INF) := by
  unfold compute_pair_cost
  cases hfe : is_pair_feasible train_id data.job_card data.certificate_validity
      data.cleaning_roster slot_row
  · simp [hfe]
  · simp [hfe, weightedSum, F.mul, F.add]

/-- Witness for C3 amended, evaluated at the high-mileage example. -/
theorem cost_inf_iff_infeasible_or_sum_inf_witness :
    (0 : ℚ) ≤ 10 ∧
      (compute_pair_cost "T1" slotStandby0 exHighMileage
          (some ⟨.fin 10, .fin 1, .fin (1/2)⟩) = INF ↔
        (is_pair_feasible "T1" exHighMileage.job_card exHighMileage.certificate_validity
            exHighMileage.cleaning_roster slotStandby0 = false ∨
          10 * readiness_risk "T1" exHighMileage.job_card
              exHighMileage.certificate_validity exHighMileage.cleaning_roster
            + 1 * mileage_penalty "T1" exHighMileage.mileage
            + 1/2 * shunt_proxy slotStandby0 = INF)) :=
  ⟨by norm_num,
    cost_inf_iff_infeasible_or_sum_inf exHighMileage "T1" slotStandby0 10 1 (1/2)
      (by norm_num) (by norm_num) (by norm_num)⟩

/-- C4 counterexample: a train present in the job-card, certificate and cleaning
tables but absent from the mileage table is still feasible for a standby slot and
receives the finite cost `2` (the sentinel mileage penalty `2.0` under default
weights), not `INF`. -/
theorem missing_table_counterexample :
    exMissingMileage.mileage.find? (fun r => r.train_id == "T1") = none ∧
      is_pair_feasible "T1" exMissingMileage.job_card
        exMissingMileage.certificate_validity exMissingMileage.cleaning_roster
        slotStandby0 = true ∧
      compute_pair_cost "T1" slotStandby0 exMissingMileage none = 2 := by
  refine ⟨rfl, rfl, ?_⟩
  norm_num [compute_pair_cost, is_pair_feasible, readiness_risk, mileage_penalty,
    shunt_proxy, weightedSum, exMissingMileage, slotStandby0, pyStripLower, pyLower,
    F.mul, F.add, DEFAULT_WEIGHTS]

/-- C4 amended: a train with no row in the job-card, certificate-validity or
cleaning-roster table is fully blocked: every pair with it is infeasible and costs
`INF` (absence from the mileage table alone does not block a train — it only
yields the sentinel mileage penalty). -/
theorem missing_core_table_blocks_train (data : Data) (train_id : String)
    (slot_row : SlotRow) (weights : Option Weights)
    (h : data.job_card.find? (fun r => r.train_id == train_id) = none ∨
         data.certificate_validity.find? (fun r => r.train_id == train_id) = none ∨
         data.cleaning_roster.find? (fun r => r.train_id == train_id) = none) :
    is_pair_feasible train_id data.job_card data.certificate_validity
        data.cleaning_roster slot_row = false ∧
      compute_pair_cost train_id slot_row data weights = INF := by
  have hfe : is_pair_feasible train_id data.job_card data.certificate_validity
      data.cleaning_roster slot_row = false := by
    unfold is_pair_feasible
    cases hj : data.job_card.find? (fun r => r.train_id == train_id) <;>
      cases hcert : data.certificate_validity.find? (fun r => r.train_id == train_id) <;>
        cases hcl : data.cleaning_roster.find? (fun r => r.train_id == train_id) <;>
          simp_all
  refine ⟨hfe, ?_⟩
  unfold compute_pair_cost
  rw [hfe]
  rfl

/-- Witness for C4 amended: a train absent from every table, on a standby slot. -/
theorem missing_core_table_blocks_train_witness :
    exAllMissing.job_card.find? (fun r => r.train_id == "T1") = none ∧
      is_pair_feasible "T1" exAllMissing.job_card exAllMissing.certificate_validity
        exAllMissing.cleaning_roster slotStandby0 = false ∧
      compute_pair_cost "T1" slotStandby0 exAllMissing none = INF :=
  ⟨rfl,
    (missing_core_table_blocks_train exAllMissing "T1" slotStandby0 none
      (Or.inl rfl)).1,
    (missing_core_table_blocks_train exAllMissing "T1" slotStandby0 none
      (Or.inl rfl)).2⟩

/-- C5 counterexample: for a train with no rows in the source tables,
`is_pair_feasible` is `false` even on a slot whose role is not `"service"` —
the claim's "always true regardless of the train's state" fails for absent
trains. -/
theorem nonservice_feasible_counterexample :
    (pyStripLower slotStandby0.role == "service") = false ∧
      is_pair_feasible "T1" exAllMissing.job_card exAllMissing.certificate_validity
        exAllMissing.cleaning_roster slotStandby0 = false :=
  ⟨rfl, rfl⟩

/-- C5 amended: for every train **present** in the job-card, certificate and
cleaning tables (with arbitrary row contents) and every slot whose role is not
`"service"` after strip/lowercase normalization, the pair is feasible. -/
theorem nonservice_feasible_when_present (data : Data) (train_id : String)
    (slot_row : SlotRow) (jrow : JobRow) (crow : CertRow) (clrow : CleanRow)
    (hj : data.job_card.find? (fun r => r.train_id == train_id) = some jrow)
    (hcert : data.certificate_validity.find? (fun r => r.train_id == train_id) = some crow)
    (hcl : data.cleaning_roster.find? (fun r => r.train_id == train_id) = some clrow)
    (hrole : pyStripLower slot_row.role ≠ "service") :
    is_pair_feasible train_id data.job_card data.certificate_validity
      data.cleaning_roster slot_row = true := by
  unfold is_pair_feasible
  rw [hj, hcert, hcl]
  have hb : (pyStripLower slot_row.role == "service") = false := by
    simp [hrole]
  simp [hb]

/-- Witness for C5 amended: a blocked train on a standby slot is feasible. -/
theorem nonservice_feasible_when_present_witness :
    exBlocked.job_card.find? (fun r => r.train_id == "T1") = some ⟨"T1", 1⟩ ∧
      is_pair_feasible "T1" exBlocked.job_card exBlocked.certificate_validity
        exBlocked.cleaning_roster slotStandby0 = true :=
  ⟨rfl,
    nonservice_feasible_when_present exBlocked "T1" slotStandby0 ⟨"T1", 1⟩
      ⟨"T1", 1, 1, 1⟩ ⟨"T1", 1⟩ rfl rfl rfl (by decide)⟩

/-- C8 counterexample: a blocked train present in all four tables, on a slot whose
role is the lowercase string `"service"` (equal to `"service"` under
case-insensitive comparison), receives **no** infeasibility reason at all — the
`"blocked train cannot go to Service"` check compares the role to the exact
string `"Service"`. -/
theorem blocked_service_reason_counterexample :
    pyStripLower "service" = "service" ∧
      get_infeasibility_reasons "T1" (some ⟨"S1", "service", some 0⟩) exBlocked = [] :=
  ⟨rfl, rfl⟩

/-- C8 amended: for a blocked train present in all source tables and a slot whose
role is **exactly** the string `"Service"` (case-sensitive, as compared by
`get_infeasibility_reasons`), the reason `"blocked train cannot go to Service"`
is reported. -/
theorem blocked_service_reason_exact_case (data : Data) (train_id : String)
    (slot_row : SlotRow) (jrow : JobRow) (crow : CertRow) (clrow : CleanRow)
    (mrow : MileageRow)
    (hj : data.job_card.find? (fun r => r.train_id == train_id) = some jrow)
    (hcert : data.certificate_validity.find? (fun r => r.train_id == train_id) = some crow)
    (hcl : data.cleaning_roster.find? (fun r => r.train_id == train_id) = some clrow)
    (hm : data.mileage.find? (fun r => r.train_id == train_id) = some mrow)
    (hb : jrow.blocked = 1) (hrole : slot_row.role = "Service") :
    "blocked train cannot go to Service" ∈
      get_infeasibility_reasons train_id (some slot_row) data := by
  unfold get_infeasibility_reasons
  apply mem_firstDedup_of_mem
  simp [hj, hcert, hcl, hb, hrole]

/-- Witness for C8 amended at a concrete blocked train with a `"Service"` slot. -/
theorem blocked_service_reason_exact_case_witness :
    (⟨"T1", 1⟩ : JobRow).blocked = 1 ∧
      "blocked train cannot go to Service" ∈
        get_infeasibility_reasons "T1" (some ⟨"S1", "Service", some 0⟩) exBlocked :=
  ⟨rfl,
    blocked_service_reason_exact_case exBlocked "T1" ⟨"S1", "Service", some 0⟩
      ⟨"T1", 1⟩ ⟨"T1", 1, 1, 1⟩ ⟨"T1", 1⟩ ⟨"T1", 0⟩ rfl rfl rfl rfl rfl rfl⟩

/-- C9: whenever the float-weighted sum of the three sub-scores is not a finite
number (NaN or an infinity), `compute_pair_cost` returns the finite sentinel
`INF` instead of propagating the non-finite value — so its result is always a
finite rational. -/
theorem nonfinite_sum_yields_sentinel (data : Data) (train_id : String)
    (slot_row : SlotRow) (w : Weights)
    (h : (weightedSum w
        (readiness_risk train_id data.job_card data.certificate_validity
          data.cleaning_roster)
        (mileage_penalty train_id data.mileage)
        (shunt_proxy slot_row)).isFinite = false) :
    compute_pair_cost train_id slot_row data (some w) = INF := by
  unfold compute_pair_cost
  cases hfe : is_pair_feasible train_id data.job_card data.certificate_validity
      data.cleaning_roster slot_row
  · rfl
  · simp only [hfe, Bool.not_true, Bool.false_eq_true, if_false, Option.getD_some]
    cases hs : weightedSum w
        (readiness_risk train_id data.job_card data.certificate_validity
          data.cleaning_roster)
        (mileage_penalty train_id data.mileage)
        (shunt_proxy slot_row)
    · rw [hs] at h
      exact absurd h (by simp [F.isFinite])
    · rfl
    · rfl
    · rfl

/-- Witness for C9: a NaN readiness weight makes the weighted sum NaN, and the
cost degrades to `INF`. -/
theorem nonfinite_sum_yields_sentinel_witness :
    (weightedSum ⟨.nan, .fin 1, .fin 1⟩
        (readiness_risk "T1" exOneTrain.job_card exOneTrain.certificate_validity
          exOneTrain.cleaning_roster)
        (mileage_penalty "T1" exOneTrain.mileage)
        (shunt_proxy ⟨"S1", "Standby", some 100⟩)).isFinite = false ∧
      compute_pair_cost "T1" ⟨"S1", "Standby", some 100⟩ exOneTrain
        (some ⟨.nan, .fin 1, .fin 1⟩) = INF :=
  ⟨rfl,
    nonfinite_sum_yields_sentinel exOneTrain "T1" ⟨"S1", "Standby", some 100⟩
      ⟨.nan, .fin 1, .fin 1⟩ rfl⟩

/-- C10: whenever a train's certificate row is present with some invalid flag,
`get_infeasibility_reasons` lists `"certificate invalid"` for **every** slot row,
regardless of the slot's role — including slots for which the pair is in fact
feasible. -/
theorem cert_invalid_reason_role_independent (data : Data) (train_id : String)
    (slot_row : SlotRow) (crow : CertRow)
    (hcert : data.certificate_validity.find? (fun r => r.train_id == train_id) = some crow)
    (hinv : (crow.brake_test_valid == 1 && crow.pto_valid == 1
        && crow.atp_valid == 1) = false) :
    "certificate invalid" ∈ get_infeasibility_reasons train_id (some slot_row) data := by
  unfold get_infeasibility_reasons
  apply mem_firstDedup_of_mem
  simp [hcert, hinv]

/-- Witness for C10: the reason is listed even for a standby slot for which the
pair is feasible, so a listed reason need not be a cause of infeasibility. -/
theorem cert_invalid_reason_role_independent_witness :
    "certificate invalid" ∈
        get_infeasibility_reasons "T1" (some slotStandby0) exBadCert ∧
      is_pair_feasible "T1" exBadCert.job_card exBadCert.certificate_validity
        exBadCert.cleaning_roster slotStandby0 = true :=
  ⟨cert_invalid_reason_role_independent exBadCert "T1" slotStandby0
      ⟨"T1", 1, 0, 1⟩ rfl rfl,
    rfl⟩
